import Mathlib

/-!
Verification development for the booking-service backend.

Shallow embedding of the core of the repository:
* `src/src/models/Booking.ts` — the slot-conflict engine and booking CRUD,
* `src/src/controllers/bookingController.ts` — the booking lifecycle controller,
* `src/src/models/User.ts` — tenant-scoped user creation and authentication,
* `src/src/middlewares/validateUser.ts` — registration input validation,
* `src/src/utils/errors.ts` — the error classes.

Database rows become Lean structures, tables become lists of rows, SQL
`WHERE` clauses become boolean row predicates (including SQL's
`NULL`-comparison semantics where relevant), and thrown JavaScript errors
become `Except` errors tagged by error class.  Times of day are minutes
since midnight (the source compares zero-padded `"HH:MM"` strings, whose
lexicographic order coincides with numeric order on minutes); dates are
opaque `Nat` codes; ids are `Nat`.
-/

namespace BookingService

/-- Booking status enum, from `src/src/models/Booking.ts` (`BookingStatus`). -/
inductive BookingStatus
  | pending
  | confirmed
  | cancelled
  | completed
  | no_show
deriving DecidableEq, Repr

/-- A row of the `bookings` table (`IBooking` in `src/src/models/Booking.ts`).
`provider_id` is nullable; times are minutes since midnight. -/
structure BookingRow where
  id : Nat
  customer_id : Nat
  patient_name : String
  patient_contact : String
  provider_id : Option Nat
  title : String
  appointment_type : String
  appointment_date : Nat
  start_time : Nat
  end_time : Nat
  duration_minutes : Nat
  status : BookingStatus
  cancellation_reason : Option String
  cancelled_at : Option Nat
  cancelled_by : Option Nat
deriving DecidableEq, Repr

/-- SQL equality against a possibly-`NULL` parameter: `provider_id = $1`
is unknown (hence does not select the row) whenever either side is `NULL`. -/
def sqlEqOpt (a b : Option Nat) : Bool :=
  match a, b with
  | some x, some y => x == y
  | _, _ => false

/-- The status filter `status NOT IN ('cancelled', 'no_show')` used by both
conflict queries in `src/src/models/Booking.ts`. -/
def isActiveStatus (s : BookingStatus) : Bool :=
  !(s == BookingStatus.cancelled || s == BookingStatus.no_show)

/-- The `WHERE` clause of the conflict-count query inside
`Booking.isSlotAvailable` (src/src/models/Booking.ts lines 233-251), for a
candidate interval `[cs, ce)`: provider match (SQL `NULL` semantics), date
match, active status, the three-way overlap disjunction, and the optional
`id != $5` exclusion. -/
def conflictRowMatches (b : BookingRow) (provider : Option Nat)
    (date cs ce : Nat) (excl : Option Nat) : Bool :=
  sqlEqOpt b.provider_id provider &&
  (b.appointment_date == date) &&
  isActiveStatus b.status &&
  ((decide (b.start_time < ce) && decide (b.end_time > cs)) ||
   (decide (b.start_time ≥ cs) && decide (b.start_time < ce)) ||
   (decide (b.end_time > cs) && decide (b.end_time ≤ ce))) &&
  (match excl with
   | some i => b.id != i
   | none => true)

/-- `Booking.isSlotAvailable` (src/src/models/Booking.ts lines 226-255):
counts rows matching the conflict query and returns whether the count is 0. -/
def isSlotAvailable (rows : List BookingRow) (provider : Option Nat)
    (date cs ce : Nat) (excl : Option Nat) : Bool :=
  (rows.filter (fun b => conflictRowMatches b provider date cs ce excl)).length == 0

/-- The booked-slots query of `Booking.getAvailableSlots`
(src/src/models/Booking.ts lines 268-276): `SELECT start_time, end_time`
for the provider (SQL `NULL` semantics) and date with active status.
The source's `ORDER BY start_time` is irrelevant to the membership test
performed on the result and is not modelled. -/
def bookedSlotsQuery (rows : List BookingRow) (provider : Option Nat)
    (date : Nat) : List (Nat × Nat) :=
  (rows.filter (fun b =>
    sqlEqOpt b.provider_id provider &&
    (b.appointment_date == date) &&
    isActiveStatus b.status)).map (fun b => (b.start_time, b.end_time))

/-- The per-booking overlap test inside the `while` loop of
`getAvailableSlots`: `currentTime < bookingEnd && currentTime + duration > bookingStart`. -/
def slotOverlapsBooked (t dur : Nat) (p : Nat × Nat) : Bool :=
  decide (t < p.2) && decide (t + dur > p.1)

/-- The candidate-generation `while` loop of `getAvailableSlots`
(src/src/models/Booking.ts lines 286-306), at the level of minute values:
starting at `t`, while `t + dur ≤ endT`, emit `t` when it overlaps no booked
interval, then advance by `dur`.  The source diverges when `dur = 0`, so the
embedding demands `0 < dur` to produce anything. -/
def genMinutes (booked : List (Nat × Nat)) (dur endT t : Nat) : List Nat :=
  if _h : 0 < dur ∧ t + dur ≤ endT then
    if booked.any (slotOverlapsBooked t dur) then
      genMinutes booked dur endT (t + dur)
    else
      t :: genMinutes booked dur endT (t + dur)
  else []
termination_by endT + 1 - t
decreasing_by all_goals omega

/-- `padStart(2, '0')` on a decimal rendering, from the slot formatter. -/
def pad2 (n : Nat) : String :=
  if n < 10 then "0" ++ toString n else toString n

/-- The `timeSlot` string built in the loop of `getAvailableSlots`:
`HH:MM` from a minutes-since-midnight value. -/
def fmtTime (m : Nat) : String :=
  pad2 (m / 60) ++ ":" ++ pad2 (m % 60)

/-- `Booking.getAvailableSlots` (src/src/models/Booking.ts lines 260-309):
runs the booked-slots query, then the generation loop from the working-hours
start.  The source formats each emitted slot inside the loop; formatting the
emitted minute values afterwards is extensionally the same. -/
def getAvailableSlots (rows : List BookingRow) (provider : Option Nat)
    (date dur ws we : Nat) : List String :=
  (genMinutes (bookedSlotsQuery rows provider date) dur we ws).map fmtTime

/-- `Booking.updateStatus` applied to one row (src/src/models/Booking.ts
lines 146-175): sets the status; when the new status is `cancelled` it also
sets `cancelled_at` (to the current timestamp `now`), `cancelled_by`
(`userId || null`) and `cancellation_reason` (`reason || null`). -/
def updateStatusRow (st : BookingStatus) (userId : Option Nat)
    (reason : Option String) (now : Nat) (b : BookingRow) : BookingRow :=
  if st == BookingStatus.cancelled then
    { b with status := st, cancelled_at := some now,
             cancelled_by := userId, cancellation_reason := reason }
  else
    { b with status := st }

/-- `Booking.updateStatus` over the table: `UPDATE ... WHERE id = $2
RETURNING *` returns the updated row (or `none` when no row matches) and the
new table contents. -/
def updateStatus (rows : List BookingRow) (id : Nat) (st : BookingStatus)
    (userId : Option Nat) (reason : Option String) (now : Nat) :
    Option BookingRow × List BookingRow :=
  ((rows.find? (fun b => b.id == id)).map (updateStatusRow st userId reason now),
   rows.map (fun b => if b.id == id then updateStatusRow st userId reason now b else b))

/-- JavaScript truthiness collapse for an optional string field, as in the
parameter lists `booking.patient_name || null`: an absent value, `null`, or
the empty string all become SQL `NULL`. -/
def truthyStr (v : Option String) : Option String :=
  match v with
  | some s => if s = "" then none else some s
  | none => none

/-- JavaScript truthiness collapse for an optional number field, as in
`booking.duration_minutes || null`: absent, `null`, or `0` become SQL `NULL`. -/
def truthyNum (v : Option Nat) : Option Nat :=
  match v with
  | some n => if n = 0 then none else some n
  | none => none

/-- A partial-update request body (`Partial<IBooking>` as consumed by
`Booking.update` and `updateBooking`).  For `provider_id`, `none` is the
absent (`undefined`) field, `some none` is an explicit `null`, and
`some (some p)` a concrete provider.  Date and time fields are non-empty
strings in the source, so present means truthy. -/
structure BookingPatch where
  patient_name : Option String
  patient_contact : Option String
  provider_id : Option (Option Nat)
  title : Option String
  appointment_type : Option String
  appointment_date : Option Nat
  start_time : Option Nat
  end_time : Option Nat
  duration_minutes : Option Nat
deriving DecidableEq, Repr

/-- The `provider_id` SQL parameter of `Booking.update`
(`booking.provider_id !== undefined ? booking.provider_id : null`): an
explicit `null` and an absent field both yield a `NULL` parameter. -/
def providerParam (v : Option (Option Nat)) : Option Nat :=
  match v with
  | some (some p) => some p
  | _ => none

/-- `Booking.update` applied to one row (src/src/models/Booking.ts lines
180-210): every column is `COALESCE(param, column)`, with each parameter
derived from the patch by JavaScript truthiness.  `customer_id`, `status`
and the cancellation fields are not in the statement's column list. -/
def applyBookingUpdate (p : BookingPatch) (b : BookingRow) : BookingRow :=
  { b with
    patient_name := (truthyStr p.patient_name).getD b.patient_name
    patient_contact := (truthyStr p.patient_contact).getD b.patient_contact
    provider_id := (providerParam p.provider_id).orElse (fun _ => b.provider_id)
    title := (truthyStr p.title).getD b.title
    appointment_type := (truthyStr p.appointment_type).getD b.appointment_type
    appointment_date := p.appointment_date.getD b.appointment_date
    start_time := p.start_time.getD b.start_time
    end_time := p.end_time.getD b.end_time
    duration_minutes := (truthyNum p.duration_minutes).getD b.duration_minutes }

/-- `Booking.update` over the table: `UPDATE ... WHERE id = $10 RETURNING *`
returns the updated row (`none` when no row matches) and the new table. -/
def bookingUpdate (rows : List BookingRow) (id : Nat) (p : BookingPatch) :
    Option BookingRow × List BookingRow :=
  ((rows.find? (fun b => b.id == id)).map (applyBookingUpdate p),
   rows.map (fun b => if b.id == id then applyBookingUpdate p b else b))

/-- Outcome of a booking-controller call: a success payload or an
`AppError(message, statusCode)` passed to `next`
(src/src/controllers/bookingController.ts). -/
inductive CtrlResult
  | ok (b : BookingRow)
  | appError (msg : String) (statusCode : Nat)
deriving DecidableEq, Repr

/-- The `validStatuses.includes(status)` check plus decoding of the status
string in `updateBookingStatus` (src/src/controllers/bookingController.ts
lines 225-226). -/
def parseStatus (s : String) : Option BookingStatus :=
  if s = "pending" then some BookingStatus.pending
  else if s = "confirmed" then some BookingStatus.confirmed
  else if s = "cancelled" then some BookingStatus.cancelled
  else if s = "completed" then some BookingStatus.completed
  else if s = "no_show" then some BookingStatus.no_show
  else none

/-- The `appointment_type` enum check shared by `createBooking` and
`updateBooking`: a provided (truthy) value must be one of the three kinds. -/
def apptTypeInvalid (v : Option String) : Bool :=
  match truthyStr v with
  | some t => !(t == "consultation" || t == "treatment" || t == "emergency")
  | none => false

/-- The common success/not-found tail of `updateBooking`: run
`bookingModel.update` and map a missing row to a 404. -/
def applyUpdateStep (rows : List BookingRow) (id : Nat) (p : BookingPatch) :
    CtrlResult × List BookingRow :=
  match bookingUpdate rows id p with
  | (none, _) => (CtrlResult.appError "Booking not found" 404, rows)
  | (some b, rows') => (CtrlResult.ok b, rows')

/-- `updateBooking` (src/src/controllers/bookingController.ts lines 153-205):
validates `appointment_type`; when the patch carries a (truthy)
`appointment_date`, `start_time` or `end_time`, loads the booking, re-runs
`isSlotAvailable` — on the patched provider/date/times with truthy fallback
to the existing row — excluding the booking's own id, aborting with a 409 on
conflict; finally applies `Booking.update`.  A patch touching none of the
three time fields (in particular a provider-only patch) skips the
availability check. -/
def updateBookingCtrl (rows : List BookingRow) (id : Nat) (p : BookingPatch) :
    CtrlResult × List BookingRow :=
  if apptTypeInvalid p.appointment_type then
    (CtrlResult.appError
      "Invalid appointment type. Must be consultation, treatment, or emergency" 400, rows)
  else if p.appointment_date.isSome || p.start_time.isSome || p.end_time.isSome then
    match rows.find? (fun b => b.id == id) with
    | none => (CtrlResult.appError "Booking not found" 404, rows)
    | some existing =>
      if isSlotAvailable rows
          ((providerParam p.provider_id).orElse (fun _ => existing.provider_id))
          (p.appointment_date.getD existing.appointment_date)
          (p.start_time.getD existing.start_time)
          (p.end_time.getD existing.end_time)
          (some id) then
        applyUpdateStep rows id p
      else
        (CtrlResult.appError "This time slot is not available" 409, rows)
  else
    applyUpdateStep rows id p

/-- `updateBookingStatus` (src/src/controllers/bookingController.ts lines
207-244): requires a truthy status string, validates it against the closed
enum (400 on anything else), then calls `Booking.updateStatus`, which sets
the status unconditionally — no check of the booking's current status. -/
def updateBookingStatusCtrl (rows : List BookingRow) (id : Nat) (status : String)
    (userId : Option Nat) (reason : Option String) (now : Nat) :
    CtrlResult × List BookingRow :=
  if status = "" then (CtrlResult.appError "Status is required" 400, rows)
  else
    match parseStatus status with
    | none => (CtrlResult.appError "Invalid status" 400, rows)
    | some st =>
      match updateStatus rows id st userId reason now with
      | (none, _) => (CtrlResult.appError "Booking not found" 404, rows)
      | (some b, rows') => (CtrlResult.ok b, rows')

/-- A row of the `users` table as read/written by `src/src/models/User.ts`.
`password` holds the bcrypt hash (local accounts always have one — OAuth
rows are out of the modelled scope); `domain` is only set for customer
admins, `customer_admin_id` only for clients. -/
structure UserRow where
  id : Nat
  full_name : String
  email : String
  phone : String
  birthday : Option Nat
  user_role : String
  password : String
  domain : Option String
  customer_admin_id : Option Nat
deriving DecidableEq, Repr

/-- The error classes a user-model call can throw
(`src/src/utils/errors.ts` plus the plain built-in `Error`): the
centralized error handler distinguishes them by class name
(`TenantNotFoundError` maps to 404; a plain `Error` falls through to 500). -/
inductive UserErr
  | plainError (msg : String)
  | tenantNotFoundError (domain : String)
deriving DecidableEq, Repr

/-- Whether a thrown error is of the `TenantNotFoundError` class. -/
def UserErr.isTenantNotFound (e : UserErr) : Bool :=
  match e with
  | UserErr.tenantNotFoundError _ => true
  | _ => false

/-- Registration candidate (`IUser` as far as `User.create` reads it).
`password` and `domain` are optional in the interface; `none` models an
absent/falsy value. -/
structure NewUser where
  full_name : String
  email : String
  phone : String
  birthday : Option Nat
  user_role : String
  password : Option String
  domain : Option String
deriving DecidableEq, Repr

/-- `User.comparePassword` (src/src/models/User.ts lines 42-45): bcrypt
comparison of the peppered plaintext against the stored hash.  `bcompare`
abstracts `bcrypt.compare`. -/
def comparePassword (bcompare : String → String → Bool) (pepper password hash : String) : Bool :=
  bcompare (password ++ pepper) hash

/-- `User.create` (src/src/models/User.ts lines 128-206).  `bhash` abstracts
`hashPassword` (pepper + salt + bcrypt); `nextId` is the id the database
assigns to the inserted row.  Role branches:
* `customeradmin` — requires a truthy `domain`, pre-checks domain uniqueness
  among customer admins (plain `Error` on duplicate), inserts with `domain`;
* `client` — requires a truthy caller subdomain (plain `Error` when absent),
  resolves the customer admin by domain (`TenantNotFoundError` when none),
  inserts with `customer_admin_id` set to that admin's id;
* any other role — throws the plain `Error`
  "Invalid or unsupported user role".
Returns the inserted row and the new table; a thrown error performs no
insert. -/
def userCreate (bhash : String → String) (users : List UserRow) (nextId : Nat)
    (u : NewUser) (subdomain : Option String) :
    Except UserErr (UserRow × List UserRow) :=
  match truthyStr u.password with
  | none => Except.error (UserErr.plainError "Password is required for local authentication")
  | some pw =>
    let hashed := bhash pw
    if u.user_role = "customeradmin" then
      match truthyStr u.domain with
      | none => Except.error (UserErr.plainError "Domain is required for customer admins")
      | some d =>
        if (users.filter (fun x => x.domain == some d && x.user_role == "customeradmin")).length > 0 then
          Except.error (UserErr.plainError "Domain already exists for another customer admin")
        else
          let row : UserRow :=
            { id := nextId, full_name := u.full_name, email := u.email,
              phone := u.phone, birthday := u.birthday, user_role := u.user_role,
              password := hashed, domain := some d, customer_admin_id := none }
          Except.ok (row, users ++ [row])
    else if u.user_role = "client" then
      match truthyStr subdomain with
      | none => Except.error (UserErr.plainError "Tenant subdomain is required")
      | some sd =>
        match users.find? (fun x => x.user_role == "customeradmin" && x.domain == some sd) with
        | none => Except.error (UserErr.tenantNotFoundError sd)
        | some admin =>
          let row : UserRow :=
            { id := nextId, full_name := u.full_name, email := u.email,
              phone := u.phone, birthday := u.birthday, user_role := u.user_role,
              password := hashed, domain := none, customer_admin_id := some admin.id }
          Except.ok (row, users ++ [row])
    else
      Except.error (UserErr.plainError "Invalid or unsupported user role")

/-- The users table after a `userCreate` call: unchanged when the call
threw, extended by the inserted row otherwise. -/
def usersAfterCreate (bhash : String → String) (users : List UserRow) (nextId : Nat)
    (u : NewUser) (subdomain : Option String) : List UserRow :=
  match userCreate bhash users nextId u subdomain with
  | Except.ok (_, l) => l
  | Except.error _ => users

/-- `User.authenticate` (src/src/models/User.ts lines 233-283).
For `role = client`: requires a truthy subdomain (plain `Error` otherwise);
resolves the customer admin by domain — throwing the plain `Error`
"Tenant ... not found" (not the `TenantNotFoundError` class) when none;
looks up the client by email under that admin and compares passwords,
returning the user on success and `none` (null) on any failure.
For other roles: looks up by email and role directly and compares. -/
def authenticate (bcompare : String → String → Bool) (pepper : String)
    (users : List UserRow) (email password user_role : String)
    (subdomain : Option String) : Except UserErr (Option UserRow) :=
  if user_role = "client" then
    match truthyStr subdomain with
    | none => Except.error (UserErr.plainError "Tenant subdomain is required")
    | some sd =>
      match users.find? (fun x => x.domain == some sd && x.user_role == "customeradmin") with
      | none => Except.error (UserErr.plainError ("Tenant " ++ sd ++ " not found"))
      | some admin =>
        match users.find? (fun x =>
            x.email == email && x.customer_admin_id == some admin.id &&
            x.user_role == "client") with
        | none => Except.ok none
        | some user =>
          if comparePassword bcompare pepper password user.password then
            Except.ok (some user)
          else
            Except.ok none
  else
    match users.find? (fun x => x.email == email && x.user_role == user_role) with
    | none => Except.ok none
    | some user =>
      if comparePassword bcompare pepper password user.password then
        Except.ok (some user)
      else
        Except.ok none

/-- The role-specific part of the registration input middleware
`validateUserInput` (src/src/middlewares/validateUser.ts lines 50-54): a
client registration without a truthy `x-tenant-domain` header is rejected
with a `ValidationError` (HTTP 400) before the controller runs.  Returns
the validation-error message, or `none` when this check passes. -/
def validateClientTenantHeader (user_role : String) (subdomain : Option String) :
    Option String :=
  if user_role = "client" then
    match truthyStr subdomain with
    | none => some "Missing tenant subdomain header (x-tenant-domain)"
    | some _ => none
  else none

/-! ### Concrete fixtures used by witnesses and counterexamples -/

/-- A booking row with representative text fields. -/
def mkBooking (id cust : Nat) (prov : Option Nat) (date s e : Nat)
    (st : BookingStatus) : BookingRow :=
  { id := id, customer_id := cust, patient_name := "pat", patient_contact := "c",
    provider_id := prov, title := "t", appointment_type := "consultation",
    appointment_date := date, start_time := s, end_time := e,
    duration_minutes := e - s, status := st,
    cancellation_reason := none, cancelled_at := none, cancelled_by := none }

/-- An all-absent partial-update body. -/
def emptyPatch : BookingPatch :=
  { patient_name := none, patient_contact := none, provider_id := none,
    title := none, appointment_type := none, appointment_date := none,
    start_time := none, end_time := none, duration_minutes := none }

/-- Two pending bookings at the same date and time on different providers. -/
def rowsC3 : List BookingRow :=
  [mkBooking 1 10 (some 100) 0 540 570 BookingStatus.pending,
   mkBooking 2 11 (some 200) 0 540 570 BookingStatus.pending]

/-- A patch touching only the provider. -/
def providerOnlyPatch : BookingPatch :=
  { emptyPatch with provider_id := some (some 200) }

/-- A patch moving a booking onto provider 200 with explicit times. -/
def timedPatch : BookingPatch :=
  { emptyPatch with
    provider_id := some (some 200)
    start_time := some 540
    end_time := some 570 }

/-- The row inserted by the customer-admin branch of `User.create`. -/
def customerAdminRow (nextId : Nat) (u : NewUser) (hashed d : String) : UserRow :=
  { id := nextId, full_name := u.full_name, email := u.email,
    phone := u.phone, birthday := u.birthday, user_role := u.user_role,
    password := hashed, domain := some d, customer_admin_id := none }

/-- The row inserted by the client branch of `User.create`. -/
def clientRow (nextId : Nat) (u : NewUser) (hashed : String) (adminId : Nat) : UserRow :=
  { id := nextId, full_name := u.full_name, email := u.email,
    phone := u.phone, birthday := u.birthday, user_role := u.user_role,
    password := hashed, domain := none, customer_admin_id := some adminId }

/-- The data-model invariant behind the partial unique index
`unique_domain_for_customer_admin` (`ON users (domain) WHERE user_role =
'customeradmin'`, migration 20251107192030): no two customer-admin rows
share a non-`NULL` domain. -/
def domainUnique (l : List UserRow) : Prop :=
  List.Pairwise (fun x y =>
    ¬(x.user_role = "customeradmin" ∧ y.user_role = "customeradmin" ∧
      x.domain = y.domain ∧ x.domain ≠ none)) l

/-- A customer-admin row owning the domain `acme`. -/
def adminAcme : UserRow :=
  { id := 1, full_name := "Ann Admin", email := "ann@acme.example",
    phone := "0599000001", birthday := none, user_role := "customeradmin",
    password := "hashA", domain := some "acme", customer_admin_id := none }

/-- A registration candidate for a second customer admin on domain `acme`. -/
def newAdminAcme : NewUser :=
  { full_name := "Bob Admin", email := "bob@acme.example", phone := "0599000002",
    birthday := none, user_role := "customeradmin", password := some "pw",
    domain := some "acme" }

/-- A client registration candidate. -/
def newClient : NewUser :=
  { full_name := "Cleo Client", email := "cleo@mail.example", phone := "0599000003",
    birthday := none, user_role := "client", password := some "pw",
    domain := none }

/-- An administrator registration candidate carrying a password. -/
def newAdministrator : NewUser :=
  { full_name := "Dana Root", email := "dana@mail.example", phone := "0599000004",
    birthday := none, user_role := "administrator", password := some "pw",
    domain := none }

end BookingService

namespace BookingService

/-! ### Theorems -/

/-- **C9.** A conflict query with `provider_id = NULL` matches no row, so
`isSlotAvailable(null, ...)` is always `true`, the booked-slots query of
`getAvailableSlots(null, ...)` is empty, and `getAvailableSlots(null, ...)`
returns exactly the candidate slots generated against an empty booked list
— regardless of the booking state. -/
theorem claim_C9 (rows : List BookingRow) (date cs ce : Nat) (excl : Option Nat)
    (dur ws we : Nat) :
    isSlotAvailable rows none date cs ce excl = true ∧
    bookedSlotsQuery rows none date = [] ∧
    getAvailableSlots rows none date dur ws we = (genMinutes [] dur we ws).map fmtTime := by
  have hfalse : ∀ b : BookingRow, sqlEqOpt b.provider_id none = false := by
    intro b
    cases b.provider_id <;> rfl
  have hquery : bookedSlotsQuery rows none date = [] := by
    unfold bookedSlotsQuery
    have : rows.filter (fun b =>
        sqlEqOpt b.provider_id none && (b.appointment_date == date) &&
        isActiveStatus b.status) = [] := by
      apply List.filter_eq_nil_iff.mpr
      intro b _
      simp [hfalse b]
    rw [this]
    rfl
  refine ⟨?_, hquery, ?_⟩
  · unfold isSlotAvailable
    have : rows.filter (fun b => conflictRowMatches b none date cs ce excl) = [] := by
      apply List.filter_eq_nil_iff.mpr
      intro b _
      simp [conflictRowMatches, hfalse b]
    rw [this]
    rfl
  · unfold getAvailableSlots
    rw [hquery]

/-- **C10.** `Booking.update` leaves a column unchanged whenever its patch
value is absent or falsy (empty string for the text columns, `0` for
`duration_minutes`, absent for the date/time columns); `provider_id` can
never become `NULL` and `duration_minutes` can never become `0` through the
update; and `customer_id`, `status` and the cancellation columns are never
modified, because they are not in the statement's column list. -/
theorem claim_C10 (p : BookingPatch) (b : BookingRow) :
    (truthyStr p.patient_name = none →
      (applyBookingUpdate p b).patient_name = b.patient_name) ∧
    (truthyStr p.patient_contact = none →
      (applyBookingUpdate p b).patient_contact = b.patient_contact) ∧
    (truthyStr p.title = none → (applyBookingUpdate p b).title = b.title) ∧
    (truthyStr p.appointment_type = none →
      (applyBookingUpdate p b).appointment_type = b.appointment_type) ∧
    (p.appointment_date = none →
      (applyBookingUpdate p b).appointment_date = b.appointment_date) ∧
    (p.start_time = none → (applyBookingUpdate p b).start_time = b.start_time) ∧
    (p.end_time = none → (applyBookingUpdate p b).end_time = b.end_time) ∧
    (truthyNum p.duration_minutes = none →
      (applyBookingUpdate p b).duration_minutes = b.duration_minutes) ∧
    ((applyBookingUpdate p b).provider_id = none → b.provider_id = none) ∧
    ((applyBookingUpdate p b).duration_minutes = 0 → b.duration_minutes = 0) ∧
    (applyBookingUpdate p b).customer_id = b.customer_id ∧
    (applyBookingUpdate p b).status = b.status ∧
    (applyBookingUpdate p b).cancelled_at = b.cancelled_at ∧
    (applyBookingUpdate p b).cancelled_by = b.cancelled_by ∧
    (applyBookingUpdate p b).cancellation_reason = b.cancellation_reason := by
  unfold applyBookingUpdate
  refine ⟨?_, ?_, ?_, ?_, ?_, ?_, ?_, ?_, ?_, ?_, rfl, rfl, rfl, rfl, rfl⟩
  · intro h; simp [h]
  · intro h; simp [h]
  · intro h; simp [h]
  · intro h; simp [h]
  · intro h; simp [h]
  · intro h; simp [h]
  · intro h; simp [h]
  · intro h; simp [h]
  · intro h
    rcases hp : providerParam p.provider_id with _ | q
    · simpa [Option.orElse, hp] using h
    · simp [Option.orElse, hp] at h
  · intro h
    rcases hd : p.duration_minutes with _ | n
    · simpa [truthyNum, hd] using h
    · by_cases hn : n = 0
      · simpa [truthyNum, hd, hn] using h
      · simp [truthyNum, hd, hn] at h

/-- Witness for C10 at a concrete booking and an all-absent patch: every
frame conjunct holds with its hypothesis discharged. -/
theorem claim_C10_witness :
    (applyBookingUpdate emptyPatch (mkBooking 1 2 (some 3) 0 480 510 BookingStatus.pending)).patient_name
      = (mkBooking 1 2 (some 3) 0 480 510 BookingStatus.pending).patient_name ∧
    (applyBookingUpdate emptyPatch (mkBooking 1 2 (some 3) 0 480 510 BookingStatus.pending)).duration_minutes
      = (mkBooking 1 2 (some 3) 0 480 510 BookingStatus.pending).duration_minutes ∧
    (applyBookingUpdate emptyPatch (mkBooking 1 2 (some 3) 0 480 510 BookingStatus.pending)).status
      = (mkBooking 1 2 (some 3) 0 480 510 BookingStatus.pending).status := by
  have h := claim_C10 emptyPatch (mkBooking 1 2 (some 3) 0 480 510 BookingStatus.pending)
  exact ⟨h.1 rfl, (h.2.2.2.2.2.2.2.1) rfl, h.2.2.2.2.2.2.2.2.2.2.2.1⟩

/-- **C8.** Creating a customer admin whose (truthy) domain is already taken
by an existing customer admin fails with the domain-duplicate error, leaving
the user table unchanged; when no customer admin holds the domain, creation
succeeds and appends a customer-admin row with that domain; and the
unique-domain invariant is preserved by the operation. -/
theorem claim_C8 (bhash : String → String) (users : List UserRow) (nextId : Nat)
    (u : NewUser) (sub : Option String) (pw d : String)
    (hpw : truthyStr u.password = some pw)
    (hrole : u.user_role = "customeradmin")
    (hdom : truthyStr u.domain = some d) :
    ((∃ x ∈ users, x.user_role = "customeradmin" ∧ x.domain = some d) →
      userCreate bhash users nextId u sub =
        Except.error (UserErr.plainError "Domain already exists for another customer admin") ∧
      usersAfterCreate bhash users nextId u sub = users) ∧
    ((∀ x ∈ users, x.user_role = "customeradmin" → x.domain ≠ some d) →
      ∃ row, userCreate bhash users nextId u sub = Except.ok (row, users ++ [row]) ∧
        row.user_role = "customeradmin" ∧ row.domain = some d) ∧
    (domainUnique users → domainUnique (usersAfterCreate bhash users nextId u sub)) := by
  have hred : userCreate bhash users nextId u sub =
      (if (users.filter (fun x => x.domain == some d && x.user_role == "customeradmin")).length > 0
       then Except.error (UserErr.plainError "Domain already exists for another customer admin")
       else Except.ok (customerAdminRow nextId u (bhash pw) d,
                       users ++ [customerAdminRow nextId u (bhash pw) d])) := by
    unfold userCreate customerAdminRow
    rw [hpw, hrole, hdom]
    simp
  refine ⟨?_, ?_, ?_⟩
  · rintro ⟨x, hx, hxr, hxd⟩
    have hxp : (fun y : UserRow => y.domain == some d && y.user_role == "customeradmin") x = true := by
      simp [hxd, hxr]
    have hlen : 0 < (users.filter
        (fun y : UserRow => y.domain == some d && y.user_role == "customeradmin")).length :=
      List.length_pos_of_mem (List.mem_filter.mpr ⟨hx, hxp⟩)
    constructor
    · rw [hred, if_pos hlen]
    · unfold usersAfterCreate
      rw [hred, if_pos hlen]
  · intro hnone
    have hnil : users.filter
        (fun y : UserRow => y.domain == some d && y.user_role == "customeradmin") = [] := by
      apply List.filter_eq_nil_iff.mpr
      intro a ha
      simp only [Bool.and_eq_true, beq_iff_eq, not_and]
      intro hda hra
      exact absurd hda (hnone a ha hra)
    have hlen : ¬ 0 < (users.filter
        (fun y : UserRow => y.domain == some d && y.user_role == "customeradmin")).length := by
      rw [hnil]
      simp
    refine ⟨customerAdminRow nextId u (bhash pw) d, ?_, hrole, rfl⟩
    rw [hred, if_neg hlen]
  · intro hinv
    unfold usersAfterCreate
    rw [hred]
    by_cases hlen : 0 < (users.filter
        (fun y : UserRow => y.domain == some d && y.user_role == "customeradmin")).length
    · rw [if_pos hlen]
      exact hinv
    · rw [if_neg hlen]
      have hnil : users.filter
          (fun y : UserRow => y.domain == some d && y.user_role == "customeradmin") = [] := by
        cases hfe : users.filter
            (fun y : UserRow => y.domain == some d && y.user_role == "customeradmin") with
        | nil => rfl
        | cons a l => exact absurd (by rw [hfe]; simp) hlen
      have hfree : ∀ a ∈ users,
          ¬(a.domain = some d ∧ a.user_role = "customeradmin") := by
        intro a ha hcontr
        have : a ∈ users.filter
            (fun y : UserRow => y.domain == some d && y.user_role == "customeradmin") :=
          List.mem_filter.mpr ⟨ha, by simp [hcontr.1, hcontr.2]⟩
        rw [hnil] at this
        exact absurd this (List.not_mem_nil a)
      unfold domainUnique
      rw [List.pairwise_append]
      refine ⟨hinv, List.pairwise_singleton _ _, ?_⟩
      intro a ha b hb
      have hbrow : b = customerAdminRow nextId u (bhash pw) d := by
        simpa using hb
      rintro ⟨har, hbr, hdom2, _⟩
      rw [hbrow] at hdom2
      simp only [customerAdminRow] at hdom2
      exact hfree a ha ⟨hdom2, har⟩

/-- Witness for C8: with an existing `acme` customer admin, a second
`acme` registration throws the duplicate-domain error and leaves the table
unchanged; on an empty table the same registration succeeds. -/
theorem claim_C8_witness :
    (userCreate (fun s => s) [adminAcme] 2 newAdminAcme none =
      Except.error (UserErr.plainError "Domain already exists for another customer admin") ∧
     usersAfterCreate (fun s => s) [adminAcme] 2 newAdminAcme none = [adminAcme]) ∧
    (∃ row, userCreate (fun s => s) [] 1 newAdminAcme none = Except.ok (row, [] ++ [row]) ∧
      row.user_role = "customeradmin" ∧ row.domain = some "acme") := by
  constructor
  · exact (claim_C8 (fun s => s) [adminAcme] 2 newAdminAcme none "pw" "acme"
      (by decide) rfl (by decide)).1
      ⟨adminAcme, by simp, rfl, rfl⟩
  · exact (claim_C8 (fun s => s) [] 1 newAdminAcme none "pw" "acme"
      (by decide) rfl (by decide)).2.1
      (by intro x hx; exact absurd hx (List.not_mem_nil x))

/-- **C7 (counterexample).** A candidate with `role = administrator` and a
password is rejected by `User.create` with the plain error
"Invalid or unsupported user role": administrator creation does not succeed. -/
theorem claim_C7_counterexample :
    userCreate (fun s => s) [] 1 newAdministrator none =
      Except.error (UserErr.plainError "Invalid or unsupported user role") := by
  rfl

/-- **C7 (amended).** `User.create` supports only the `customeradmin` and
`client` roles: for every candidate with `role = administrator` carrying a
(truthy) password, creation fails with the plain error
"Invalid or unsupported user role", for every table, id and tenant header
(no tenant scoping is consulted, because the call fails before any). -/
theorem claim_C7 (bhash : String → String) (users : List UserRow) (nextId : Nat)
    (u : NewUser) (sub : Option String) (pw : String)
    (hpw : truthyStr u.password = some pw)
    (hrole : u.user_role = "administrator") :
    userCreate bhash users nextId u sub =
      Except.error (UserErr.plainError "Invalid or unsupported user role") := by
  unfold userCreate
  rw [hpw, hrole]
  rfl

/-- Witness for C7 at a concrete candidate, table and header. -/
theorem claim_C7_witness :
    userCreate (fun s => s) [adminAcme] 5 newAdministrator (some "acme") =
      Except.error (UserErr.plainError "Invalid or unsupported user role") :=
  claim_C7 (fun s => s) [adminAcme] 5 newAdministrator (some "acme") "pw"
    (by decide) rfl

/-- **C6 (counterexample).** A client registration with no tenant-subdomain
header is rejected by `User.create` with the plain error
"Tenant subdomain is required" — not a `TenantNotFoundError` — and the
registration route's input middleware rejects it even earlier with a
`ValidationError` (a generic validation error). -/
theorem claim_C6_counterexample :
    userCreate (fun s => s) [adminAcme] 2 newClient none =
      Except.error (UserErr.plainError "Tenant subdomain is required") ∧
    UserErr.isTenantNotFound (UserErr.plainError "Tenant subdomain is required") = false ∧
    validateClientTenantHeader "client" none =
      some "Missing tenant subdomain header (x-tenant-domain)" := by
  refine ⟨rfl, rfl, rfl⟩

/-- **C6 (amended).** Registering a client without a tenant-subdomain header
fails — with the middleware's `ValidationError` at the route boundary and
with the plain error "Tenant subdomain is required" in `User.create` — not
with a `TenantNotFoundError`; a header naming a domain with no existing
customer admin fails with `TenantNotFoundError`; and otherwise the new
client's `customer_admin_id` is set to the resolved customer admin's id. -/
theorem claim_C6 (bhash : String → String) (users : List UserRow) (nextId : Nat)
    (u : NewUser) (pw : String)
    (hpw : truthyStr u.password = some pw)
    (hrole : u.user_role = "client") :
    (userCreate bhash users nextId u none =
      Except.error (UserErr.plainError "Tenant subdomain is required")) ∧
    (validateClientTenantHeader u.user_role none =
      some "Missing tenant subdomain header (x-tenant-domain)") ∧
    (∀ sd : String, sd ≠ "" →
      (users.find? (fun x => x.user_role == "customeradmin" && x.domain == some sd) = none →
        userCreate bhash users nextId u (some sd) =
          Except.error (UserErr.tenantNotFoundError sd)) ∧
      (∀ admin, users.find? (fun x =>
          x.user_role == "customeradmin" && x.domain == some sd) = some admin →
        ∃ row, userCreate bhash users nextId u (some sd) = Except.ok (row, users ++ [row]) ∧
          row.user_role = "client" ∧ row.customer_admin_id = some admin.id)) := by
  have hnotca : ¬ u.user_role = "customeradmin" := by
    rw [hrole]
    decide
  refine ⟨?_, ?_, ?_⟩
  · unfold userCreate
    rw [hpw]
    simp [hrole, truthyStr]
  · simp [validateClientTenantHeader, hrole, truthyStr]
  · intro sd hsd
    constructor
    · intro hfind
      unfold userCreate
      rw [hpw]
      simp [hrole, truthyStr, hsd, hfind]
    · intro admin hfind
      refine ⟨clientRow nextId u (bhash pw) admin.id, ?_, hrole, rfl⟩
      unfold userCreate
      rw [hpw]
      simp [hrole, truthyStr, hsd, hfind, clientRow]

/-- Witness for C6: the no-header case at a concrete candidate; the
unknown-domain case on an empty table; the success case under the `acme`
admin, with the owning-tenant reference set to the admin's id. -/
theorem claim_C6_witness :
    (userCreate (fun s => s) [adminAcme] 2 newClient none =
      Except.error (UserErr.plainError "Tenant subdomain is required")) ∧
    (userCreate (fun s => s) [] 1 newClient (some "acme") =
      Except.error (UserErr.tenantNotFoundError "acme")) ∧
    (∃ row, userCreate (fun s => s) [adminAcme] 2 newClient (some "acme") =
      Except.ok (row, [adminAcme] ++ [row]) ∧
      row.user_role = "client" ∧ row.customer_admin_id = some adminAcme.id) := by
  refine ⟨?_, ?_, ?_⟩
  · exact (claim_C6 (fun s => s) [adminAcme] 2 newClient "pw" (by decide) rfl).1
  · exact ((claim_C6 (fun s => s) [] 1 newClient "pw" (by decide) rfl).2.2
      "acme" (by decide)).1 rfl
  · exact ((claim_C6 (fun s => s) [adminAcme] 2 newClient "pw" (by decide) rfl).2.2
      "acme" (by decide)).2 adminAcme (by rfl)

/-- **C5 (counterexample).** When no customer admin owns the header's
domain, `User.authenticate` for a client throws the plain built-in `Error`
"Tenant ... not found" — not an error of the `TenantNotFoundError` class
(the boundary maps that plain error to a 500, not to the 404 reserved for
`TenantNotFoundError`). -/
theorem claim_C5_counterexample :
    authenticate (fun _ _ => false) "" [] "cleo@mail.example" "pw" "client" (some "acme") =
      Except.error (UserErr.plainError "Tenant acme not found") ∧
    UserErr.isTenantNotFound (UserErr.plainError "Tenant acme not found") = false := by
  refine ⟨rfl, rfl⟩

/-- **C5 (amended).** For a client login with a (truthy) tenant header:
if no customer admin owns that domain, `User.authenticate` fails fast by
throwing the plain `Error` "Tenant ... not found" (not the
`TenantNotFoundError` class); if the tenant exists but no client with that
email exists under it, or the password comparison fails, the call returns
`null` — the same observable value in both cases, never revealing which
check failed. -/
theorem claim_C5 (bcompare : String → String → Bool) (pepper : String)
    (users : List UserRow) (email password sd : String) (hsd : sd ≠ "") :
    (users.find? (fun x => x.domain == some sd && x.user_role == "customeradmin") = none →
      authenticate bcompare pepper users email password "client" (some sd) =
        Except.error (UserErr.plainError ("Tenant " ++ sd ++ " not found"))) ∧
    (∀ admin, users.find? (fun x =>
        x.domain == some sd && x.user_role == "customeradmin") = some admin →
      (users.find? (fun x => x.email == email && x.customer_admin_id == some admin.id &&
          x.user_role == "client") = none →
        authenticate bcompare pepper users email password "client" (some sd) =
          Except.ok none) ∧
      (∀ user, users.find? (fun x => x.email == email && x.customer_admin_id == some admin.id &&
          x.user_role == "client") = some user →
        bcompare (password ++ pepper) user.password = false →
        authenticate bcompare pepper users email password "client" (some sd) =
          Except.ok none)) := by
  constructor
  · intro hadmin
    simp [authenticate, truthyStr, hsd, hadmin]
  · intro admin hadmin
    constructor
    · intro huser
      simp [authenticate, truthyStr, hsd, hadmin, huser]
    · intro user huser hcmp
      simp [authenticate, truthyStr, hsd, hadmin, huser, comparePassword, hcmp]

/-- Witness for C5: on a table holding only the `acme` admin, an unknown
domain throws the plain tenant-not-found `Error`, and a missing client under
the known domain yields `null`. -/
theorem claim_C5_witness :
    (authenticate (fun _ _ => false) "" [adminAcme] "cleo@mail.example" "pw" "client"
      (some "other") = Except.error (UserErr.plainError "Tenant other not found")) ∧
    (authenticate (fun _ _ => false) "" [adminAcme] "cleo@mail.example" "pw" "client"
      (some "acme") = Except.ok none) := by
  constructor
  · exact (claim_C5 (fun _ _ => false) "" [adminAcme] "cleo@mail.example" "pw" "other"
      (by decide)).1 (by decide)
  · exact ((claim_C5 (fun _ _ => false) "" [adminAcme] "cleo@mail.example" "pw" "acme"
      (by decide)).2 adminAcme (by decide)).1 (by decide)

/-- **C4 (counterexample).** A booking whose status is `cancelled` — a
terminal state — is moved back to `pending` by the status-update operation:
the controller validates only enum membership and `Booking.updateStatus`
never consults the current status. -/
theorem claim_C4_counterexample :
    updateBookingStatusCtrl [mkBooking 1 2 (some 3) 0 480 510 BookingStatus.cancelled]
        1 "pending" (some 9) none 100 =
      (CtrlResult.ok (mkBooking 1 2 (some 3) 0 480 510 BookingStatus.pending),
       [mkBooking 1 2 (some 3) 0 480 510 BookingStatus.pending]) ∧
    (mkBooking 1 2 (some 3) 0 480 510 BookingStatus.cancelled).status =
      BookingStatus.cancelled := by
  refine ⟨rfl, rfl⟩

/-- **C4 (amended).** The status-update operation validates only membership
in the closed enum {pending, confirmed, cancelled, completed, no_show} — a
value outside it is rejected with "Invalid status" and the table is
unchanged — and for any valid value it overwrites the status of the matched
booking unconditionally: a booking in a terminal status (cancelled,
completed, no_show) can be moved to any other status. -/
theorem claim_C4 (rows : List BookingRow) (id : Nat) (s : String)
    (userId : Option Nat) (reason : Option String) (now : Nat) :
    (s ≠ "" → parseStatus s = none →
      updateBookingStatusCtrl rows id s userId reason now =
        (CtrlResult.appError "Invalid status" 400, rows)) ∧
    (∀ st b, parseStatus s = some st → rows.find? (fun x => x.id == id) = some b →
      updateBookingStatusCtrl rows id s userId reason now =
        (CtrlResult.ok (updateStatusRow st userId reason now b),
         rows.map (fun x => if x.id == id then updateStatusRow st userId reason now x else x))) ∧
    (∀ st b, (updateStatusRow st userId reason now b).status = st) := by
  refine ⟨?_, ?_, ?_⟩
  · intro hne hparse
    unfold updateBookingStatusCtrl
    rw [if_neg hne, hparse]
  · intro st b hparse hfind
    have hne : ¬ s = "" := by
      intro h
      rw [h] at hparse
      simp [parseStatus] at hparse
    unfold updateBookingStatusCtrl updateStatus
    rw [if_neg hne, hparse, hfind]
    rfl
  · intro st b
    unfold updateStatusRow
    by_cases h : (st == BookingStatus.cancelled) = true
    · rw [if_pos h]
    · rw [if_neg h]

/-- Witness for C4: a status outside the enum is rejected with 400; a
cancelled booking is set to `confirmed` by a valid request. -/
theorem claim_C4_witness :
    (updateBookingStatusCtrl [mkBooking 1 2 (some 3) 0 480 510 BookingStatus.cancelled]
        1 "bogus" none none 0 =
      (CtrlResult.appError "Invalid status" 400,
       [mkBooking 1 2 (some 3) 0 480 510 BookingStatus.cancelled])) ∧
    (updateBookingStatusCtrl [mkBooking 1 2 (some 3) 0 480 510 BookingStatus.cancelled]
        1 "confirmed" none none 0 =
      (CtrlResult.ok (updateStatusRow BookingStatus.confirmed none none 0
        (mkBooking 1 2 (some 3) 0 480 510 BookingStatus.cancelled)),
       [mkBooking 1 2 (some 3) 0 480 510 BookingStatus.cancelled].map
         (fun x => if x.id == 1 then updateStatusRow BookingStatus.confirmed none none 0 x
          else x))) := by
  constructor
  · exact (claim_C4 [mkBooking 1 2 (some 3) 0 480 510 BookingStatus.cancelled]
      1 "bogus" none none 0).1 (by decide) (by decide)
  · exact (claim_C4 [mkBooking 1 2 (some 3) 0 480 510 BookingStatus.cancelled]
      1 "confirmed" none none 0).2.1 BookingStatus.confirmed
      (mkBooking 1 2 (some 3) 0 480 510 BookingStatus.cancelled) (by decide) (by decide)

/-- **C3 (counterexample).** A patch touching only the provider skips the
availability re-check: booking 1 (provider 100, 09:00–09:30) is moved onto
provider 200 although provider 200's 09:00–09:30 is occupied by booking 2
— `isSlotAvailable` excluding booking 1 answers `false`, yet the update
succeeds and applies the patch instead of aborting with a conflict. -/
theorem claim_C3_counterexample :
    isSlotAvailable rowsC3 (some 200) 0 540 570 (some 1) = false ∧
    updateBookingCtrl rowsC3 1 providerOnlyPatch =
      (CtrlResult.ok (mkBooking 1 10 (some 200) 0 540 570 BookingStatus.pending),
       [mkBooking 1 10 (some 200) 0 540 570 BookingStatus.pending,
        mkBooking 2 11 (some 200) 0 540 570 BookingStatus.pending]) := by
  refine ⟨rfl, rfl⟩

/-- **C3 (amended).** When the patch touches the appointment date, start
time or end time, `updateBooking` re-runs `isSlotAvailable` — on the patched
provider, date and times with fallback to the existing row — excluding the
booking's own id, and a failed check aborts the whole update with a 409
Conflict, applying no field of the patch; a patch touching none of those
three fields (in particular one touching only the provider) skips the
availability check and goes straight to the update. -/
theorem claim_C3 (rows : List BookingRow) (id : Nat) (p : BookingPatch)
    (htype : apptTypeInvalid p.appointment_type = false) :
    ((p.appointment_date.isSome || p.start_time.isSome || p.end_time.isSome) = true →
      ∀ existing, rows.find? (fun b => b.id == id) = some existing →
        isSlotAvailable rows
          ((providerParam p.provider_id).orElse (fun _ => existing.provider_id))
          (p.appointment_date.getD existing.appointment_date)
          (p.start_time.getD existing.start_time)
          (p.end_time.getD existing.end_time) (some id) = false →
        updateBookingCtrl rows id p =
          (CtrlResult.appError "This time slot is not available" 409, rows)) ∧
    (p.appointment_date = none → p.start_time = none → p.end_time = none →
      updateBookingCtrl rows id p = applyUpdateStep rows id p) := by
  constructor
  · intro htouch existing hfind hunavail
    simp [updateBookingCtrl, htype, htouch, hfind, hunavail]
  · intro h1 h2 h3
    simp [updateBookingCtrl, htype, h1, h2, h3]

/-- Witness for C3: a timed patch moving booking 1 onto occupied provider
200 is aborted with the 409 conflict and changes nothing. -/
theorem claim_C3_witness :
    updateBookingCtrl rowsC3 1 timedPatch =
      (CtrlResult.appError "This time slot is not available" 409, rowsC3) :=
  (claim_C3 rowsC3 1 timedPatch (by decide)).1 (by decide)
    (mkBooking 1 10 (some 100) 0 540 570 BookingStatus.pending) (by decide) (by decide)

/-- For a stored interval with `start < end`, the three-clause SQL overlap
disjunction of `isSlotAvailable` coincides with the canonical half-open
overlap test `s < ce ∧ cs < e`: the second clause implies the first because
`e > s ≥ cs`, the third because `s < e ≤ ce`. -/
theorem conflictRowMatches_iff (b : BookingRow) (p date cs ce : Nat)
    (hb : b.start_time < b.end_time) :
    conflictRowMatches b (some p) date cs ce none = true ↔
      (b.provider_id = some p ∧ b.appointment_date = date ∧
       isActiveStatus b.status = true ∧ b.start_time < ce ∧ cs < b.end_time) := by
  unfold conflictRowMatches
  cases hbp : b.provider_id with
  | none => simp [sqlEqOpt]
  | some q =>
    simp only [sqlEqOpt, Bool.and_eq_true, Bool.or_eq_true, Bool.and_true,
      decide_eq_true_eq, beq_iff_eq, Option.some.injEq]
    constructor
    · intro h
      obtain ⟨⟨⟨hq, hdate⟩, hact⟩, hover⟩ := h
      exact ⟨hq, hdate, hact, by omega, by omega⟩
    · intro h
      obtain ⟨hq, hdate, hact, h1, h2⟩ := h
      exact ⟨⟨⟨hq, hdate⟩, hact⟩, Or.inl (Or.inl ⟨h1, h2⟩)⟩

/-- The statuses passing the `status NOT IN ('cancelled', 'no_show')`
filter are exactly pending, confirmed and completed. -/
theorem isActiveStatus_iff (s : BookingStatus) :
    isActiveStatus s = true ↔
      (s = BookingStatus.pending ∨ s = BookingStatus.confirmed ∨
       s = BookingStatus.completed) := by
  cases s <;> decide

/-- `isSlotAvailable` answers `false` exactly when some row matches the
conflict query. -/
theorem isSlotAvailable_false_iff (rows : List BookingRow) (provider : Option Nat)
    (date cs ce : Nat) (excl : Option Nat) :
    isSlotAvailable rows provider date cs ce excl = false ↔
      ∃ b ∈ rows, conflictRowMatches b provider date cs ce excl = true := by
  unfold isSlotAvailable
  constructor
  · intro h
    rcases hfe : rows.filter (fun b => conflictRowMatches b provider date cs ce excl) with _ | ⟨a, l⟩
    · rw [hfe] at h
      simp at h
    · have ha : a ∈ rows.filter (fun b => conflictRowMatches b provider date cs ce excl) := by
        rw [hfe]
        exact List.mem_cons_self a l
      have hm := List.mem_filter.mp ha
      exact ⟨a, hm.1, hm.2⟩
  · rintro ⟨b, hbmem, hbm⟩
    have hmem : b ∈ rows.filter (fun x => conflictRowMatches x provider date cs ce excl) :=
      List.mem_filter.mpr ⟨hbmem, hbm⟩
    have hlen := List.length_pos_of_mem hmem
    simp only [beq_eq_false_iff_ne, ne_eq]
    omega

/-- **C1.** For well-formed booking rows and a candidate half-open interval
`[cs, ce)` with `cs < ce` on provider `p` and a date, `isSlotAvailable`
returns `false` iff some existing booking for that provider and date with
status in {pending, confirmed, completed} has an interval `[s, e)` with
`s < ce` and `cs < e`; touching intervals fail that strict test, so they
never conflict, and cancelled/no_show rows are filtered out — in
particular, after cancelling a booking through `Booking.updateStatus`, a
re-query of its exact former interval returns `true` provided no other
active booking overlaps it. -/
theorem claim_C1 (rows : List BookingRow) (p date cs ce : Nat)
    (_hcand : cs < ce) (hwf : ∀ b ∈ rows, b.start_time < b.end_time) :
    (isSlotAvailable rows (some p) date cs ce none = false ↔
      ∃ b ∈ rows, b.provider_id = some p ∧ b.appointment_date = date ∧
        (b.status = BookingStatus.pending ∨ b.status = BookingStatus.confirmed ∨
         b.status = BookingStatus.completed) ∧
        b.start_time < ce ∧ cs < b.end_time) ∧
    (∀ i userId reason now,
      (∀ b ∈ rows, b.id ≠ i →
        ¬(b.provider_id = some p ∧ b.appointment_date = date ∧
          isActiveStatus b.status = true ∧ b.start_time < ce ∧ cs < b.end_time)) →
      isSlotAvailable
        (updateStatus rows i BookingStatus.cancelled userId reason now).2
        (some p) date cs ce none = true) := by
  constructor
  · rw [isSlotAvailable_false_iff]
    constructor
    · rintro ⟨b, hbmem, hbm⟩
      have hsem := (conflictRowMatches_iff b p date cs ce (hwf b hbmem)).mp hbm
      exact ⟨b, hbmem, hsem.1, hsem.2.1, (isActiveStatus_iff _).mp hsem.2.2.1,
        hsem.2.2.2.1, hsem.2.2.2.2⟩
    · rintro ⟨b, hbmem, h1, h2, h3, h4, h5⟩
      exact ⟨b, hbmem, (conflictRowMatches_iff b p date cs ce (hwf b hbmem)).mpr
        ⟨h1, h2, (isActiveStatus_iff _).mpr h3, h4, h5⟩⟩
  · intro i userId reason now hother
    unfold isSlotAvailable
    have hnil : ((updateStatus rows i BookingStatus.cancelled userId reason now).2).filter
        (fun b => conflictRowMatches b (some p) date cs ce none) = [] := by
      apply List.filter_eq_nil_iff.mpr
      intro x hx
      unfold updateStatus at hx
      simp only [List.mem_map] at hx
      obtain ⟨b, hbmem, hbx⟩ := hx
      by_cases hid : (b.id == i) = true
      · rw [if_pos hid] at hbx
        have hxstatus : x.status = BookingStatus.cancelled := by
          rw [← hbx]
          rfl
        simp [conflictRowMatches, isActiveStatus, hxstatus]
      · rw [if_neg hid] at hbx
        subst hbx
        intro hmatch
        have hsem := (conflictRowMatches_iff b p date cs ce (hwf b hbmem)).mp hmatch
        have hbneq : b.id ≠ i := by simpa using hid
        exact hother b hbmem hbneq hsem
    rw [hnil]
    rfl

/-- Witness for C1 at a one-booking table: the pending booking 08:00–08:30
on provider 3 blocks its own interval, and after cancelling it the same
query answers `true`. -/
theorem claim_C1_witness :
    isSlotAvailable [mkBooking 1 2 (some 3) 0 480 510 BookingStatus.pending]
      (some 3) 0 480 510 none = false ∧
    isSlotAvailable
      (updateStatus [mkBooking 1 2 (some 3) 0 480 510 BookingStatus.pending]
        1 BookingStatus.cancelled (some 9) none 50).2
      (some 3) 0 480 510 none = true := by
  have h := claim_C1 [mkBooking 1 2 (some 3) 0 480 510 BookingStatus.pending]
    3 0 480 510 (by decide)
    (by
      intro b hb
      rw [List.mem_singleton] at hb
      subst hb
      decide)
  constructor
  · exact h.1.mpr ⟨mkBooking 1 2 (some 3) 0 480 510 BookingStatus.pending,
      List.mem_singleton.mpr rfl, by decide, by decide, by decide, by decide, by decide⟩
  · exact h.2 1 (some 9) none 50
      (by
        intro b hb hbneq
        rw [List.mem_singleton] at hb
        subst hb
        exact absurd rfl hbneq)

/-- Characterization of the slot-generation loop: for a positive duration,
`m` is emitted from start `t` exactly when `m` is on the `dur`-grid from
`t`, fits before `endT`, and overlaps no booked interval. -/
theorem mem_genMinutes (booked : List (Nat × Nat)) (dur endT t m : Nat) (hd : 0 < dur) :
    m ∈ genMinutes booked dur endT t ↔
      ((∃ k, m = t + k * dur) ∧ m + dur ≤ endT ∧
        ∀ q ∈ booked, slotOverlapsBooked m dur q = false) := by
  by_cases h : t + dur ≤ endT
  · rw [genMinutes, dif_pos ⟨hd, h⟩]
    by_cases hb : booked.any (slotOverlapsBooked t dur) = true
    · rw [if_pos hb, mem_genMinutes booked dur endT (t + dur) m hd]
      constructor
      · rintro ⟨⟨k, hk⟩, hle, hfree⟩
        refine ⟨⟨k + 1, ?_⟩, hle, hfree⟩
        rw [hk, Nat.succ_mul]
        omega
      · rintro ⟨⟨k, hk⟩, hle, hfree⟩
        cases k with
        | zero =>
          exfalso
          simp only [Nat.zero_mul, Nat.add_zero] at hk
          subst hk
          obtain ⟨q, hq, hover⟩ := List.any_eq_true.mp hb
          exact absurd hover (by simp [hfree q hq])
        | succ k' =>
          refine ⟨⟨k', ?_⟩, hle, hfree⟩
          rw [hk, Nat.succ_mul]
          omega
    · rw [if_neg hb, List.mem_cons, mem_genMinutes booked dur endT (t + dur) m hd]
      constructor
      · rintro (rfl | ⟨⟨k, hk⟩, hle, hfree⟩)
        · refine ⟨⟨0, by simp⟩, h, ?_⟩
          intro q hq
          cases hbool : slotOverlapsBooked m dur q with
          | false => rfl
          | true => exact absurd (List.any_eq_true.mpr ⟨q, hq, hbool⟩) hb
        · refine ⟨⟨k + 1, ?_⟩, hle, hfree⟩
          rw [hk, Nat.succ_mul]
          omega
      · rintro ⟨⟨k, hk⟩, hle, hfree⟩
        cases k with
        | zero =>
          left
          simpa using hk
        | succ k' =>
          right
          refine ⟨⟨k', ?_⟩, hle, hfree⟩
          rw [hk, Nat.succ_mul]
          omega
  · rw [genMinutes, dif_neg (fun hc => h hc.2)]
    simp only [List.not_mem_nil, false_iff]
    rintro ⟨⟨k, hk⟩, hle, -⟩
    have hm : t ≤ m := by
      rw [hk]
      exact Nat.le_add_right _ _
    omega
termination_by endT + 1 - t
decreasing_by all_goals omega

/-- The slot-generation loop emits minute values in strictly ascending
order. -/
theorem genMinutes_pairwise (booked : List (Nat × Nat)) (dur endT t : Nat)
    (hd : 0 < dur) :
    List.Pairwise (fun a b : Nat => a < b) (genMinutes booked dur endT t) := by
  by_cases h : t + dur ≤ endT
  · rw [genMinutes, dif_pos ⟨hd, h⟩]
    by_cases hb : booked.any (slotOverlapsBooked t dur) = true
    · rw [if_pos hb]
      exact genMinutes_pairwise booked dur endT (t + dur) hd
    · rw [if_neg hb]
      refine List.Pairwise.cons ?_ (genMinutes_pairwise booked dur endT (t + dur) hd)
      intro m hm
      obtain ⟨⟨k, hk⟩, -, -⟩ := (mem_genMinutes booked dur endT (t + dur) m hd).mp hm
      have hge : t + dur ≤ m := by
        rw [hk]
        exact Nat.le_add_right _ _
      omega
  · rw [genMinutes, dif_neg (fun hc => h hc.2)]
    exact List.Pairwise.nil
termination_by endT + 1 - t
decreasing_by all_goals omega

/-- **C2.** For a positive duration, `getAvailableSlots` formats exactly the
minute values characterized by the generation loop: a value is returned iff
it is `workStart + k * duration` for some `k`, fits before `workEnd`, and
its interval overlaps no active booking of that provider and date (the
booked-slots query); the emitted values are strictly ascending (and an empty
result is an ordinary value, not an error); in particular, on
08:00–09:00 working hours with one pending booking 08:00–08:30 on the
provider, the 30-minute slots are exactly `["08:30"]`. -/
theorem claim_C2 (rows : List BookingRow) (provider : Option Nat)
    (date dur ws we : Nat) (hd : 0 < dur) :
    getAvailableSlots rows provider date dur ws we =
      (genMinutes (bookedSlotsQuery rows provider date) dur we ws).map fmtTime ∧
    (∀ m, m ∈ genMinutes (bookedSlotsQuery rows provider date) dur we ws ↔
      ((∃ k, m = ws + k * dur) ∧ m + dur ≤ we ∧
        ∀ q ∈ bookedSlotsQuery rows provider date, ¬(m < q.2 ∧ m + dur > q.1))) ∧
    List.Pairwise (fun a b : Nat => a < b)
      (genMinutes (bookedSlotsQuery rows provider date) dur we ws) ∧
    getAvailableSlots [mkBooking 1 2 (some 1) 0 480 510 BookingStatus.pending]
      (some 1) 0 30 480 540 = ["08:30"] := by
  have hqlem : ∀ (m : Nat) (q : Nat × Nat),
      slotOverlapsBooked m dur q = false ↔ ¬(m < q.2 ∧ m + dur > q.1) := by
    intro m q
    rw [Bool.eq_false_iff]
    simp [slotOverlapsBooked]
  refine ⟨rfl, ?_, genMinutes_pairwise _ _ _ _ hd, ?_⟩
  · intro m
    rw [mem_genMinutes _ _ _ _ _ hd]
    constructor
    · rintro ⟨hk, hle, hfree⟩
      exact ⟨hk, hle, fun q hq2 => (hqlem m q).mp (hfree q hq2)⟩
    · rintro ⟨hk, hle, hfree⟩
      exact ⟨hk, hle, fun q hq2 => (hqlem m q).mpr (hfree q hq2)⟩
  · simp only [getAvailableSlots, bookedSlotsQuery, mkBooking, sqlEqOpt, isActiveStatus]
    simp [genMinutes, slotOverlapsBooked, fmtTime, pad2]
    rfl

/-- Witness for C2: the theorem applied at duration 30 yields the concrete
08:00–09:00 example. -/
theorem claim_C2_witness :
    0 < 30 ∧
    getAvailableSlots [mkBooking 1 2 (some 1) 0 480 510 BookingStatus.pending]
      (some 1) 0 30 480 540 = ["08:30"] :=
  ⟨by decide, (claim_C2 [] none 0 30 0 0 (by decide)).2.2.2⟩

end BookingService
